import Mathlib

/- Shallow embedding of the plugin lifecycle and orchestration engine in
   src/libs/src/LSPlugin.core.ts (classes PluginSettings, PluginLocal and
   LSPluginCore).  Host API calls, the sandbox channel and the path and DOM
   helper functions are external collaborators of that file; their outcomes
   are supplied through explicit environment records and every observable
   action is recorded in a trace list. -/

/-- JavaScript values held in a plugin settings map.  Objects are modeled
structurally as ordered key and value lists. -/
inductive Val where
  | vUndef : Val
  | vNull : Val
  | vBool : Bool → Val
  | vNum : Int → Val
  | vStr : String → Val
  | vObj : List (String × Val) → Val

/-- A settings map: insertion ordered keys with values, as a JS object. -/
abbrev Smap := List (String × Val)

/-- Reading a property of a JS object: a missing key yields undefined. -/
def lookupVal (m : Smap) (k : String) : Val :=
  match m with
  | [] => Val.vUndef
  | (k0, v0) :: rest => if k0 == k then v0 else lookupVal rest k

/-- Writing one property of a JS object: existing keys keep their slot,
fresh keys are appended, matching JS property insertion order. -/
def setKey (m : Smap) (k : String) (v : Val) : Smap :=
  match m with
  | [] => [(k, v)]
  | (k0, v0) :: rest => if k0 == k then (k0, v) :: rest else (k0, v0) :: setKey rest k v

/-- Object.assign semantics: every source property overwrites the target. -/
def assignAll (t : Smap) (src : Smap) : Smap :=
  src.foldl (fun acc p => setKey acc p.1 p.2) t

/-- True when the object has the key. -/
def keyIn (m : Smap) (k : String) : Bool :=
  m.any (fun p => p.1 == k)

mutual

/-- Structural equality test on JS values. -/
def Val.beq : Val → Val → Bool
  | Val.vUndef, Val.vUndef => true
  | Val.vNull, Val.vNull => true
  | Val.vBool a, Val.vBool b => a == b
  | Val.vNum a, Val.vNum b => a == b
  | Val.vStr a, Val.vStr b => a == b
  | Val.vObj a, Val.vObj b => beqFields a b
  | _, _ => false
termination_by a _ => sizeOf a

/-- Structural equality test on JS object field lists. -/
def beqFields : List (String × Val) → List (String × Val) → Bool
  | [], [] => true
  | (k1, v1) :: r1, (k2, v2) :: r2 => k1 == k2 && Val.beq v1 v2 && beqFields r1 r2
  | _, _ => false
termination_by a _ => sizeOf a

end

mutual

/-- Modelled from the spec: the deepMerge helper (the helpers module is not
under src) performs a deep merge, merging plain objects recursively and
letting any other source value overwrite the target value. -/
def mergeVal : Val → Val → Val
  | Val.vObj a, Val.vObj b => Val.vObj (mergeFields a b)
  | _, v => v
termination_by a b => (sizeOf b, 0, sizeOf a)

/-- Merges every binding of the source object into the target object. -/
def mergeFields : Smap → Smap → Smap
  | t, [] => t
  | t, (k, v) :: rest => mergeFields (mergeOne t k v) rest
termination_by t src => (sizeOf src, 1, sizeOf t)

/-- Merges a single source binding into the target object. -/
def mergeOne : Smap → String → Val → Smap
  | [], k, v => [(k, v)]
  | (k0, v0) :: rest, k, v =>
    if k0 == k then (k0, mergeVal v0 v) :: rest
    else (k0, v0) :: mergeOne rest k v
termination_by t _ v => (sizeOf v, 2, sizeOf t)

end

/-- True for the two JS nullish values. -/
def nullish : Val → Bool
  | Val.vUndef => true
  | Val.vNull => true
  | _ => false

/-- The loose equality check used by PluginSettings.set on a single key.
Values are compared structurally and the two nullish values are identified,
as JS loose equality does on them. -/
def jsEq (a b : Val) : Bool :=
  Val.beq a b || (nullish a && nullish b)

/-- JS truthiness of a settings value. -/
def truthy : Val → Bool
  | Val.vUndef => false
  | Val.vNull => false
  | Val.vBool b => b
  | Val.vNum n => decide (n ≠ 0)
  | Val.vStr s => decide (s ≠ "")
  | Val.vObj _ => true

/-- JS truthiness of an optional string, as used on entry fields. -/
def optStrTruthy : Option String → Bool
  | some s => decide (s ≠ "")
  | none => false

/-- Extracts a non empty string value, else none. -/
def strOfVal : Val → Option String
  | Val.vStr s => if s == "" then none else some s
  | _ => none

mutual

/-- Structural equality on JS values is reflexive. -/
theorem Val.beq_refl : (a : Val) → Val.beq a a = true
  | Val.vUndef => by simp [Val.beq]
  | Val.vNull => by simp [Val.beq]
  | Val.vBool b => by simp [Val.beq]
  | Val.vNum n => by simp [Val.beq]
  | Val.vStr s => by simp [Val.beq]
  | Val.vObj fs => by simp [Val.beq, beqFields_refl fs]
termination_by a => sizeOf a

/-- Structural equality on field lists is reflexive. -/
theorem beqFields_refl : (a : List (String × Val)) → beqFields a a = true
  | [] => by simp [beqFields]
  | (k, v) :: rest => by simp [beqFields, Val.beq_refl v, beqFields_refl rest]
termination_by a => sizeOf a

end

/-- A failed loose equality check implies the values are distinct. -/
theorem jsEq_false_ne {a b : Val} (h : jsEq a b = false) : a ≠ b := by
  intro hab
  subst hab
  simp [jsEq, Val.beq_refl] at h

/-- Events emitted by a PluginSettings store (EventEmitter channels change
and reset), carrying the next and the previous settings map. -/
inductive SEvent where
  | change (next prev : Smap)
  | resetEv (next prev : Smap)

/-- Modelled from the spec: a settings schema (SettingSchemaDesc list from
the external type declarations) is an ordered list of keys with declared
defaults; only its presence matters in the embedded code paths. -/
abbrev Schema := List (String × Val)

/-- The PluginSettings state: the private settings map and the optional
schema, as the two fields of class PluginSettings. -/
structure PluginSettings where
  settings : Smap
  schema : Option Schema

/-- The PluginSettings constructor: the map starts as a disabled false
record and the persisted user settings are assigned over it. -/
def PluginSettings.construct (userPluginSettings : Smap) (schema : Option Schema) :
    PluginSettings :=
  { settings := assignAll [("disabled", Val.vBool false)] userPluginSettings
    schema := schema }

/-- PluginSettings.get returns the current value, undefined when absent. -/
def PluginSettings.get (s : PluginSettings) (k : String) : Val :=
  lookupVal s.settings k

/-- The argument of PluginSettings.set: a string key with a value, a partial
object, or any other argument shape (which the method ignores). -/
inductive SetArg where
  | sKey (k : String) (v : Val)
  | sObj (p : Smap)
  | sOther

/-- PluginSettings.set.  The string key form returns without any effect when
the loose equality check on that key succeeds, else writes the key.  The
object form deep merges the partial into the map.  Any other argument
returns.  Whenever execution reaches the end, a change event fires carrying
the new map and the copy of the previous map. -/
def PluginSettings.set (s : PluginSettings) (arg : SetArg) :
    PluginSettings × List SEvent :=
  let o := s.settings
  match arg with
  | SetArg.sKey k v =>
    if jsEq (lookupVal s.settings k) v then (s, [])
    else
      let next := setKey s.settings k v
      ({ s with settings := next }, [SEvent.change next o])
  | SetArg.sObj p =>
    let next := mergeFields s.settings p
    ({ s with settings := next }, [SEvent.change next o])
  | SetArg.sOther => (s, [])

/-- Modelled from the spec: mergeSettingsWithSchema (helpers module is not
under src) reconciles the map against the schema by filling missing keys
from declared defaults. -/
def mergeSettingsWithSchema (st : Smap) (sch : Schema) : Smap :=
  sch.foldl (fun acc p => if keyIn acc p.1 then acc else setKey acc p.1 p.2) st

/-- PluginSettings.setSchema stores the schema and, when syncSettings is
requested, reconciles the map and emits a change event. -/
def PluginSettings.setSchema (s : PluginSettings) (sch : Schema) (syncSettings : Bool) :
    PluginSettings × List SEvent :=
  let s1 := { s with schema := some sch }
  if syncSettings then
    let prev := s1.settings
    let next := mergeSettingsWithSchema prev sch
    ({ s1 with settings := next }, [SEvent.change next prev])
  else (s1, [])

/-- PluginSettings.reset replaces the map with an empty object (the schema
driven default generation is an empty TODO branch in the source) and emits a
reset event with the new and the old map. -/
def PluginSettings.reset (s : PluginSettings) : PluginSettings × List SEvent :=
  let o := s.settings
  ({ s with settings := [] }, [SEvent.resetEv [] o])

/-- True when the value is a JS boolean. -/
def isBoolVal : Val → Bool
  | Val.vBool _ => true
  | _ => false

/-- A registered theme descriptor (type Theme of the external declarations):
the owning plugin identity, the stylesheet location and an optional mode. -/
structure ThemeT where
  pid : Option String
  url : Option String
  mode : Option String
  name : Option String
deriving DecidableEq

/-- The five lifecycle states of enum PluginLocalLoadStatus. -/
inductive LoadStatus where
  | loading
  | unloading
  | loaded
  | unloaded
  | error
deriving DecidableEq

/-- The embedded error taxonomy: the two error classes declared in the file
plus host API and sandbox failures surfaced as plain errors. -/
inductive JsError where
  | illegalPluginPackage (msg : String)
  | existedImportedPluginPackage (pid : String)
  | hostError (msg : String)
  | sandboxError (msg : String)
deriving DecidableEq

/-- The origin of a release action pushed on the disposal stack. -/
inductive DKind where
  | emptyFn
  | unregisterThemeFn
  | destroyCaller
  | cleanInjectedScripts
  | custom (n : Nat)
deriving DecidableEq

/-- One release action on the disposal stack: its origin and whether its
invocation will fail (the outcome of the wrapped asynchronous call). -/
structure DAct where
  kind : DKind
  fails : Bool
deriving DecidableEq

/-- Observable unit level actions: disposal runs, events emitted on the
PluginLocal emitter, sandbox channel messages, host API calls, emissions
the unit performs on the core emitter, and a deferred ready signal. -/
inductive Effect where
  | ranDispose (kind : DKind) (ok : Bool)
  | emitted (ev : String)
  | calledUserModel (msg : String)
  | hostCall (api : String)
  | ctxEmit (ev : String)
  | providerTheme (t : ThemeT)
  | subscribedSettings (pid : String)
  | logged (site : String)
  | ejectedTheme
  | deferredReady
deriving DecidableEq

/-- Events emitted on the LSPluginCore emitter. -/
inductive CoreEvent where
  | errorEv (e : JsError)
  | registeredEv (pid : String)
  | unregisteredEv (pid : String)
  | readyEv
  | themesChangedEv
  | themeSelectedEv
  | resetCustomThemeEv
deriving DecidableEq

/-- The state of one PluginLocal unit.  Fields id, status, loadErr and the
disposal stack mirror the private fields of class PluginLocal; settings,
entry, devEntry, theme, url and name mirror the embedded PluginLocalOptions
fields; sdkVersion mirrors field sdk.version; themed mirrors the closure
flag of initProviderHandlers; inDotRoot and basename stand for the path
derived getter isInstalledInDotRoot and path.basename of the local root
(path helpers are external).  Plain metadata attrs (author, repository,
description, sponsors, icon, title, mode) carry no behavior here and are
not modeled. -/
structure PluginLocal where
  id : String
  status : LoadStatus
  loadErr : Option JsError
  disposes : List DAct
  settings : Option PluginSettings
  entry : Option String
  devEntry : Option String
  theme : Bool
  url : Option String
  name : Option String
  sdkVersion : Option String
  themed : Bool
  inDotRoot : Bool
  basename : String

/-- Getter pending: true in the two transient states. -/
def PluginLocal.pending (u : PluginLocal) : Bool :=
  [LoadStatus.loading, LoadStatus.unloading].contains u.status

/-- Getter loaded. -/
def PluginLocal.loaded (u : PluginLocal) : Bool :=
  u.status = LoadStatus.loaded

/-- Getter disabled: the raw settings value of key disabled, undefined when
the unit has no settings store. -/
def PluginLocal.disabledVal (u : PluginLocal) : Val :=
  match u.settings with
  | some s => s.get "disabled"
  | none => Val.vUndef

/-- Pushes a release action (method underscore dispose); a falsy argument is
ignored by the source, so the caller only passes real actions here. -/
def PluginLocal.pushDispose (u : PluginLocal) (d : DAct) : PluginLocal :=
  { u with disposes := u.disposes ++ [d] }

/-- The for loop of the private dispose method: each action is awaited
inside its own try block, so a failing action is logged and the loop
continues with the remaining actions. -/
def runDisposeLoop : List DAct → List Effect
  | [] => []
  | d :: rest => Effect.ranDispose d.kind (!d.fails) :: runDisposeLoop rest

/-- The private dispose method: runs every accumulated release action in
insertion order and then clears the stack. -/
def PluginLocal.dispose (u : PluginLocal) : PluginLocal × List Effect :=
  ({ u with disposes := [] }, runDisposeLoop u.disposes)

/-- The registry map of LSPluginCore: identity keyed units in insertion
order. -/
abbrev Registry := List (String × PluginLocal)

/-- Map.has on the registry. -/
def regHas (reg : Registry) (k : String) : Bool :=
  reg.any (fun p => p.1 == k)

/-- Map.get on the registry. -/
def regGet (reg : Registry) (k : String) : Option PluginLocal :=
  match reg with
  | [] => none
  | (k0, u0) :: rest => if k0 == k then some u0 else regGet rest k

/-- Map.set on the registry: existing keys keep their slot, fresh keys are
appended. -/
def regSet (reg : Registry) (k : String) (u : PluginLocal) : Registry :=
  match reg with
  | [] => [(k, u)]
  | (k0, u0) :: rest => if k0 == k then (k0, u) :: rest else (k0, u0) :: regSet rest k u

/-- The package descriptor fields read by the private method
underscore preparePackageConfigs after JSON parsing: the candidate entry
(logseq.entry, logseq.main or pkg.main), the declared dev entry, the
declared identity logseq.id, the logseq.theme flag, the theme descriptor
list logseq.themes (empty when absent, one element when a single object)
and the name attr. -/
structure PkgInfo where
  entryMain : Option String
  devEntry : Option String
  logseqId : Option String
  themeFlag : Bool
  themes : List ThemeT
  name : Option String
deriving DecidableEq

/-- Outcomes of the external calls one load pass performs: the package
config request with its JSON parse (an error message when it throws), the
per plugin persisted user settings, the host side entry file write, the
sandbox connection, and whether the two teardown actions pushed after a
successful connection will fail when later invoked. -/
structure LoadEnv where
  pkg : Except String PkgInfo
  userSettings : Except String Smap
  writeEntryFile : Except String String
  connect : Except String Unit
  destroyFails : Bool
  cleanScriptsFails : Bool

/-- The load options object: a reload pass and the presence of a batch wide
ready indicator. -/
structure LoadOpts where
  reload : Bool
  hasIndicator : Bool
deriving DecidableEq

/-- Entry validation of underscore preparePackageConfigs: a js or html
file. -/
def validateEntry : Option String → Bool
  | some m => m.endsWith ".js" || m.endsWith ".html"
  | none => false

/-- Identity resolution of underscore preparePackageConfigs: under the
managed root the basename of the resolved location, else the declared
logseq.id, else the already minted constructor identity. -/
def resolvedId (u : PluginLocal) (p : PkgInfo) : String :=
  if u.inDotRoot then u.basename else p.logseqId.getD u.id

/-- The private method underscore preparePackageConfigs up to its returned
theme closure: resolve and parse the package config (any failure raising
IllegalPluginPackageError), pick the whitelisted attrs onto the options,
adopt a validated entry with its dev entry, resolve the identity (a freshly
minted identity is persisted back best effort through save add plugin
config), and raise ExistedImportedPluginPackageError when an active
registration batch already has this identity in the registry.  Returns the
parsed package on success together with the mutated unit and the trace. -/
def prepare (u : PluginLocal) (env : LoadEnv) (isRegistering : Bool) (reg : Registry) :
    Except JsError PkgInfo × PluginLocal × List Effect :=
  match env.pkg with
  | Except.error msg =>
    (Except.error (JsError.illegalPluginPackage msg), u, [Effect.hostCall "load_plugin_config"])
  | Except.ok p =>
    let u1 := { u with name := p.name, theme := p.themeFlag || !p.themes.isEmpty }
    let u2 :=
      if validateEntry p.entryMain then { u1 with entry := p.entryMain, devEntry := p.devEntry }
      else u1
    let u3 := { u2 with id := resolvedId u2 p }
    let trSave :=
      if !u2.inDotRoot && p.logseqId.isNone then [Effect.hostCall "save_plugin_config"]
      else ([] : List Effect)
    let tr := Effect.hostCall "load_plugin_config" :: trSave
    if isRegistering && regHas reg u3.id then
      (Except.error (JsError.existedImportedPluginPackage u3.id), u3, tr)
    else (Except.ok p, u3, tr)

/-- The private method underscore setupUserSettings.  When a store exists
and this is not a reload pass it returns nothing.  Otherwise it loads the
persisted settings (a failure is caught and logged, leaving no store
behind), constructs the store when absent, on a reload pass replaces the
raw map and returns nothing, and otherwise attaches the enable and disable
change handler and returns the empty release function that load pushes on
the disposal stack. -/
def setupUserSettings (u : PluginLocal) (env : LoadEnv) (reload : Bool) :
    PluginLocal × Option DAct × List Effect :=
  if u.settings.isSome && !reload then (u, none, [])
  else
    match env.userSettings with
    | Except.error _ =>
      (u, none, [Effect.hostCall "load_plugin_user_settings", Effect.logged "load settings"])
    | Except.ok us =>
      let store :=
        match u.settings with
        | some s => s
        | none => PluginSettings.construct us none
      if reload then
        ({ u with settings := some { store with settings := us } }, none,
          [Effect.hostCall "load_plugin_user_settings"])
      else
        ({ u with settings := some store }, some ⟨DKind.emptyFn, false⟩,
          [Effect.hostCall "load_plugin_user_settings"])

/-- One step of underscore loadConfigThemes together with the provider
theme handler of initProviderHandlers: a theme without a truthy url is
skipped; otherwise the handler registers the theme with the shared theme
registry and, only the first time for this unit, pushes the matching
deregistration onto the disposal stack. -/
def emitThemeForPlugin (acc : PluginLocal × List Effect) (t : ThemeT) :
    PluginLocal × List Effect :=
  if !optStrTruthy t.url then acc
  else
    let u := acc.1
    let u1 :=
      if u.themed then u
      else { u with themed := true, disposes := u.disposes ++ [⟨DKind.unregisterThemeFn, false⟩] }
    (u1, acc.2 ++ [Effect.providerTheme t])

/-- The closure returned by underscore preparePackageConfigs: when the
package declares themes it installs each of them; every failure inside is
caught and logged, so the closure never raises. -/
def installPackageThemes (u : PluginLocal) (p : PkgInfo) : PluginLocal × List Effect :=
  p.themes.foldl emitThemeForPlugin (u, [])

/-- The private method underscore tryToNormalizeEntry: a dev entry (from
the options or from the private settings key) overrides the entry; a non js
entry is kept as is; a js entry is wrapped into a synthesized host document
written through the host API (under the dot dir for managed plugins) whose
resulting path becomes the effective entry.  Only the host write can
raise. -/
def tryToNormalizeEntry (u : PluginLocal) (env : LoadEnv) :
    Except JsError (PluginLocal × List Effect) :=
  let devFromOptions :=
    match u.devEntry with
    | some d => if d == "" then none else some d
    | none => none
  let dev :=
    match devFromOptions with
    | some d => some d
    | none =>
      match u.settings with
      | some s => strOfVal (s.get "_devEntry")
      | none => none
  match dev with
  | some d => Except.ok ({ u with entry := some d }, [])
  | none =>
    match u.entry with
    | none => Except.ok (u, [])
    | some e =>
      if !e.endsWith ".js" then Except.ok (u, [])
      else
        let api := if u.inDotRoot then "write_dotdir_file" else "write_user_tmp_file"
        match env.writeEntryFile with
        | Except.error msg => Except.error (JsError.hostError msg)
        | Except.ok entryPath =>
          Except.ok ({ u with entry := some entryPath }, [Effect.hostCall api])

/-- The try block of PluginLocal.load, from package resolution to sandbox
connection.  An error value carries the raised error together with the
unit state and the trace accumulated up to the raise, exactly what the
catch clause of load observes. -/
def loadTryBody (u : PluginLocal) (env : LoadEnv) (opts : LoadOpts) (isRegistering : Bool)
    (reg : Registry) :
    Except (JsError × PluginLocal × List Effect) (PluginLocal × List Effect) :=
  match prepare u env isRegistering reg with
  | (Except.error e, u1, tr0) => Except.error (e, u1, tr0)
  | (Except.ok p, u1, tr0) =>
    let r1 := setupUserSettings u1 env opts.reload
    let u2 :=
      match r1.2.1 with
      | some d => r1.1.pushDispose d
      | none => r1.1
    let tr1 := r1.2.2
    let r2 :=
      if !(truthy u2.disabledVal) then installPackageThemes u2 p else (u2, [])
    let u3 := r2.1
    let tr2 := r2.2
    if truthy u3.disabledVal || !(optStrTruthy u3.entry) then
      Except.ok (u3, tr0 ++ tr1 ++ tr2)
    else
      match tryToNormalizeEntry u3 env with
      | Except.error e => Except.error (e, u3, tr0 ++ tr1 ++ tr2)
      | Except.ok (u4, tr3) =>
        match env.connect with
        | Except.error msg =>
          Except.error (JsError.sandboxError msg, u4,
            tr0 ++ tr1 ++ tr2 ++ tr3 ++ [Effect.hostCall "connectToChild"])
        | Except.ok _ =>
          let trReady :=
            if opts.hasIndicator then [Effect.deferredReady]
            else [Effect.calledUserModel "ready"]
          let u5 := { u4 with disposes := u4.disposes ++
            [⟨DKind.destroyCaller, env.destroyFails⟩,
             ⟨DKind.cleanInjectedScripts, env.cleanScriptsFails⟩] }
          Except.ok (u5, tr0 ++ tr1 ++ tr2 ++ tr3 ++ [Effect.hostCall "connectToChild"] ++ trReady)

/-- PluginLocal.load.  A pending unit returns at once.  Otherwise status
becomes loading and the previous error is cleared; the try body runs; on a
raise the catch clause runs the disposal stack best effort, sets status
error and records the error; the finally clause resolves the status of a
non failed pass to unloaded when disabled, else loaded. -/
def PluginLocal.load (u : PluginLocal) (env : LoadEnv) (opts : LoadOpts)
    (isRegistering : Bool) (reg : Registry) : PluginLocal × List Effect :=
  if u.pending then (u, [])
  else
    let u1 := { u with status := LoadStatus.loading, loadErr := none }
    match loadTryBody u1 env opts isRegistering reg with
    | Except.ok (u2, tr) =>
      let st := if truthy u2.disabledVal then LoadStatus.unloaded else LoadStatus.loaded
      ({ u2 with status := st }, tr)
    | Except.error (e, u2, tr) =>
      let r := u2.dispose
      ({ r.1 with status := LoadStatus.error, loadErr := some e },
        tr ++ [Effect.logged "load"] ++ r.2)

/-- Outcomes of the external calls one unload pass performs: the awaited
before unload message into the sandbox and whether some beforeunload
listener raises (both failures are caught by the inner catch and only
logged). -/
structure UnloadEnv where
  beforeUnloadCall : Except String Unit
  beforeUnloadEmitThrows : Bool

/-- The body of PluginLocal.unload for the plain (non unregister) form,
after the pending guard.  Only a loaded unit transitions through unloading,
notifies the sandbox, emits beforeunload and runs the full disposal stack;
in every case the unloaded event is emitted and the finally clause sets
status unloaded. -/
def PluginLocal.unloadCore (u : PluginLocal) (env : UnloadEnv) : PluginLocal × List Effect :=
  let r :=
    if u.loaded then
      let u1 := { u with status := LoadStatus.unloading }
      let trInner :=
        match env.beforeUnloadCall with
        | Except.error _ => [Effect.calledUserModel "before-unload", Effect.logged "beforeunload"]
        | Except.ok _ =>
          if env.beforeUnloadEmitThrows then
            [Effect.calledUserModel "before-unload", Effect.emitted "beforeunload",
             Effect.logged "beforeunload"]
          else [Effect.calledUserModel "before-unload", Effect.emitted "beforeunload"]
      let r1 := u1.dispose
      (r1.1, trInner ++ r1.2)
    else (u, [])
  ({ r.1 with status := LoadStatus.unloaded }, r.2 ++ [Effect.emitted "unloaded"])

/-- PluginLocal.unload.  A pending unit returns at once.  The unregister
form recursively performs a plain unload (the guard was just checked and
the state is unchanged, so the recursive call proceeds) and then signals
the orchestrator to unlink managed plugin files. -/
def PluginLocal.unload (u : PluginLocal) (env : UnloadEnv) (unregister : Bool) :
    PluginLocal × List Effect :=
  if u.pending then (u, [])
  else
    match unregister with
    | true =>
      let r := u.unloadCore env
      (r.1, r.2 ++ (if u.inDotRoot then [Effect.ctxEmit "unlink-plugin"] else []))
    | false => u.unloadCore env

/-- PluginLocal.reload: a pending unit returns at once; otherwise the core
beforereload event, a plain unload, a fresh load marked as reload, and the
core reloaded event. -/
def PluginLocal.reload (u : PluginLocal) (uenv : UnloadEnv) (lenv : LoadEnv)
    (isRegistering : Bool) (reg : Registry) : PluginLocal × List Effect :=
  if u.pending then (u, [])
  else
    let r1 := u.unload uenv false
    let r2 := r1.1.load lenv { reload := true, hasIndicator := false } isRegistering reg
    (r2.1, [Effect.ctxEmit "beforereload"] ++ r1.2 ++ r2.2 ++ [Effect.ctxEmit "reloaded"])

/-- A register descriptor (RegisterPluginOpts): an optional explicit key, a
package location and optional pre filled option fields.  Field genId stands
for the identity the external genID helper would mint in the PluginLocal
constructor when no key is given (modelled from the spec: fresh identities
are minted by an external generator).  Fields inDotRoot and basename stand
for the path derived placement of the package (path helpers are
external). -/
structure Desc where
  key : Option String
  genId : String
  url : Option String
  entry : Option String
  name : Option String
  inDotRoot : Bool
  basename : String
deriving DecidableEq

/-- The PluginLocal constructor: the identity is the explicit key or a
minted one; the unit starts unloaded with an empty disposal stack and no
settings store. -/
def newPluginLocal (d : Desc) : PluginLocal :=
  { id := d.key.getD d.genId
    status := LoadStatus.unloaded
    loadErr := none
    disposes := []
    settings := none
    entry := d.entry
    devEntry := none
    theme := false
    url := d.url
    name := d.name
    sdkVersion := none
    themed := false
    inDotRoot := d.inDotRoot
    basename := d.basename }

/-- The result of a registration loop pass: the registry, the external
origin set (JS sets keep insertion order and may hold undefined), the core
events emitted and the unit level trace. -/
structure RegResult where
  reg : Registry
  externals : List (Option String)
  events : List CoreEvent
  trace : List Effect

/-- Set.add on the external origin set. -/
def addExternal (ex : List (Option String)) (u : Option String) : List (Option String) :=
  if ex.contains u then ex else ex ++ [u]

/-- The per descriptor loop of LSPluginCore.register, with isRegistering
true for the whole batch.  For each descriptor: construct a unit, load it
with the shared ready indicator, emit an error event when the load recorded
an error, skip the unit entirely for the two fatal package errors, and
otherwise subscribe to its settings changes, add it to the registry, emit
registered, and add non managed origins to the external set. -/
def registerLoop : List (Desc × LoadEnv) → Registry → List (Option String) → RegResult
  | [], reg, ex => ⟨reg, ex, [], []⟩
  | (d, env) :: rest, reg, ex =>
    let u0 := newPluginLocal d
    let r := u0.load env ⟨false, true⟩ true reg
    let u1 := r.1
    let evErr : List CoreEvent :=
      match u1.loadErr with
      | some e => [CoreEvent.errorEv e]
      | none => []
    let isFatal : Bool :=
      match u1.loadErr with
      | some (JsError.illegalPluginPackage _) => true
      | some (JsError.existedImportedPluginPackage _) => true
      | _ => false
    if isFatal then
      let rr := registerLoop rest reg ex
      ⟨rr.reg, rr.externals, evErr ++ rr.events, r.2 ++ rr.trace⟩
    else
      let reg1 := regSet reg u1.id u1
      let ex1 := if !u1.inDotRoot then addExternal ex d.url else ex
      let rr := registerLoop rest reg1 ex1
      ⟨rr.reg, rr.externals, evErr ++ [CoreEvent.registeredEv u1.id] ++ rr.events,
        r.2 ++ [Effect.subscribedSettings u1.id] ++ rr.trace⟩

/-- The hook environment: the case normalization of the type string (the
safeSnakeCase helper is external) and the host decision
should add exec add plugin add hook (modelled from the spec: the host is asked
whether a hook type should execute for a version aware unit). -/
structure HookCtx where
  caseNorm : String → String
  shouldExec : String → String → Bool

/-- The registry iteration of the private method of LSPluginCore that
dispatches one hook (underscore hook), for the broadcast and the targeted
fallback: units without a truthy entry or disabled are skipped; without a
target the pre version units receive everything except the reserved data
change hooks and version aware units consult the host; with a target the
matching unit receives the hook and the loop breaks.  Returns the
identities whose sandbox channel receives the hook message. -/
def hookLoop (pid : Option String) (ctx : HookCtx) (hookName : String)
    (isDbChanged isDbBlock : Bool) : List (String × PluginLocal) → List String
  | [] => []
  | (_, u) :: rest =>
    if !(optStrTruthy u.entry) || truthy u.disabledVal then
      hookLoop pid ctx hookName isDbChanged isDbBlock rest
    else
      match pid with
      | none =>
        let fromSdk :=
          match u.sdkVersion with
          | none => if isDbChanged || isDbBlock then [] else [u.id]
          | some v =>
            if v == "" then if isDbChanged || isDbBlock then [] else [u.id]
            else if ctx.shouldExec u.id hookName then [u.id] else []
        fromSdk ++ hookLoop pid ctx hookName isDbChanged isDbBlock rest
      | some i => if i == u.id then [u.id] else hookLoop pid ctx hookName isDbChanged isDbBlock rest

/-- The private hook dispatch of LSPluginCore (underscore hook): formats
the hook name, and when a target identity names a registered unit that is
enabled and has an entry, delivers only to that unit and returns;
otherwise the registry iteration runs. -/
def hookDispatch (reg : Registry) (ctx : HookCtx) (ns ty : String) (pid : Option String) :
    List String :=
  let hookName := ns ++ ":" ++ ctx.caseNorm ty
  let isDbChanged := hookName == "hook:db:changed"
  let isDbBlock := hookName.startsWith "hook:db:block"
  let pidT :=
    match pid with
    | some i => if i == "" then none else some i
    | none => none
  let p := pidT.bind (fun i => regGet reg i)
  match p with
  | some u =>
    if !(truthy u.disabledVal) && optStrTruthy u.entry then [u.id]
    else hookLoop pidT ctx hookName isDbChanged isDbBlock reg
  | none => hookLoop pidT ctx hookName isDbChanged isDbBlock reg

/-- The process wide user preferences: the legacy single theme, the theme
mode with one theme per mode, and the external origin list. -/
structure UserPreferences where
  theme : Option ThemeT
  mode : String
  light : Option ThemeT
  dark : Option ThemeT
  externals : List (Option String)
deriving DecidableEq

/-- The active theme record of LSPluginCore: the owning identity and the
descriptor (its revocation action is traced as an eject effect). -/
structure CurrentTheme where
  pid : Option String
  opt : ThemeT
deriving DecidableEq

/-- The theme facing state of LSPluginCore: the registered theme map, the
at most one active theme and the user preferences. -/
structure ThemeState where
  registeredThemes : List (String × List ThemeT)
  currentTheme : Option CurrentTheme
  prefs : UserPreferences
deriving DecidableEq

/-- Map.has on the registered theme map. -/
def themesHas (m : List (String × List ThemeT)) (k : String) : Bool :=
  m.any (fun p => p.1 == k)

/-- Map.get on the registered theme map. -/
def themesGet (m : List (String × List ThemeT)) (k : String) : Option (List ThemeT) :=
  match m with
  | [] => none
  | (k0, v0) :: rest => if k0 == k then some v0 else themesGet rest k

/-- Map.set on the registered theme map. -/
def themesSet (m : List (String × List ThemeT)) (k : String) (v : List ThemeT) :
    List (String × List ThemeT) :=
  match m with
  | [] => [(k, v)]
  | (k0, v0) :: rest => if k0 == k then (k0, v) :: rest else (k0, v0) :: themesSet rest k v

/-- Map.delete on the registered theme map. -/
def themesDelete (m : List (String × List ThemeT)) (k : String) :
    List (String × List ThemeT) :=
  m.filter (fun p => !(p.1 == k))

/-- LSPluginCore.registerTheme: a falsy identity returns; otherwise the
descriptor is appended to that identity contribution list and the themes
changed event fires. -/
def registerTheme (s : ThemeState) (id : String) (opt : ThemeT) :
    ThemeState × List CoreEvent :=
  if id == "" then (s, [])
  else
    let ts := (themesGet s.registeredThemes id).getD []
    ({ s with registeredThemes := themesSet s.registeredThemes id (ts ++ [opt]) },
      [CoreEvent.themesChangedEv])

/-- Clears an optional preference theme when its pid strictly equals the
identity, as the ternaries of unregisterTheme do. -/
def clearPid (o : Option ThemeT) (id : String) : Option ThemeT :=
  match o with
  | some t => if t.pid == some id then none else some t
  | none => none

/-- LSPluginCore.unregisterTheme: an identity with no registered
contribution returns at once.  Otherwise its contributions are dropped and
themes changed fires; when effect is requested and the active theme pid
strictly equals the identity, the active theme is ejected and cleared, the
preference fields pointing at the identity are nulled, the preferences are
persisted and reset custom theme fires. -/
def unregisterTheme (s : ThemeState) (id : String) (effect : Bool) :
    ThemeState × List CoreEvent × List Effect :=
  if !(themesHas s.registeredThemes id) then (s, [], [])
  else
    let s1 := { s with registeredThemes := themesDelete s.registeredThemes id }
    let curPid :=
      match s1.currentTheme with
      | some ct => ct.pid
      | none => none
    if effect && curPid == some id then
      let prefs := s1.prefs
      let newPrefs := { prefs with
        theme := clearPid prefs.theme id
        light := clearPid prefs.light id
        dark := clearPid prefs.dark id }
      ({ s1 with currentTheme := none, prefs := newPrefs },
        [CoreEvent.themesChangedEv, CoreEvent.resetCustomThemeEv],
        [Effect.ejectedTheme, Effect.hostCall "save_user_preferences"])
    else (s1, [CoreEvent.themesChangedEv], [])

/-- Concrete descriptor used by the closed instance theorems. -/
def sampleDesc : Desc :=
  { key := some "sample-plugin"
    genId := "gen-1"
    url := some "/ext/sample"
    entry := none
    name := some "Sample"
    inDotRoot := false
    basename := "sample" }

/-- Concrete settings store holding only the constructor default. -/
def sampleStore : PluginSettings := PluginSettings.construct [] none

/-- A unit stuck in the loading state. -/
def pendingUnit : PluginLocal :=
  { newPluginLocal sampleDesc with status := LoadStatus.loading }

/-- A loaded unit with a failing and a succeeding release action. -/
def loadedUnit : PluginLocal :=
  { newPluginLocal sampleDesc with
      status := LoadStatus.loaded
      disposes := [⟨DKind.custom 1, true⟩, ⟨DKind.custom 2, false⟩] }

/-- A load environment whose package config request fails to parse. -/
def failPkgEnv : LoadEnv :=
  { pkg := Except.error "parse error"
    userSettings := Except.ok []
    writeEntryFile := Except.ok "/tmp/entry.html"
    connect := Except.ok ()
    destroyFails := false
    cleanScriptsFails := false }

/-- An unload environment whose before unload sandbox message rejects. -/
def failUnloadEnv : UnloadEnv :=
  { beforeUnloadCall := Except.error "sandbox gone"
    beforeUnloadEmitThrows := false }

/-- A theme descriptor owned by identity a. -/
def sampleTheme : ThemeT :=
  { pid := some "a", url := some "u.css", mode := none, name := some "t" }

/-- A theme state whose active theme is owned by identity a while identity a
has no registered contribution (a theme activated from persisted
preferences). -/
def themeStateNoReg : ThemeState :=
  { registeredThemes := []
    currentTheme := some { pid := some "a", opt := sampleTheme }
    prefs := { theme := none, mode := "light", light := some sampleTheme, dark := none,
               externals := [] } }

/-- A theme state whose active theme owner also has a registered
contribution. -/
def themeStateReg : ThemeState :=
  { themeStateNoReg with registeredThemes := [("a", [sampleTheme])] }

/-- Writing a key then reading it back yields the written value. -/
theorem lookupVal_setKey_self (m : Smap) (k : String) (v : Val) :
    lookupVal (setKey m k v) k = v := by
  induction m with
  | nil => simp [setKey, lookupVal]
  | cons q rest ih =>
    by_cases h : q.1 == k
    · cases q with
      | mk k0 v0 => simp_all [setKey, lookupVal]
    · cases q with
      | mk k0 v0 => simp_all [setKey, lookupVal]

/-- Merging one binding leaves every other key unchanged. -/
theorem lookupVal_mergeOne_ne (t : Smap) (j : String) (v : Val) (k : String)
    (h : (j == k) = false) :
    lookupVal (mergeOne t j v) k = lookupVal t k := by
  induction t with
  | nil => simp [mergeOne, lookupVal, h]
  | cons q rest ih =>
    cases q with
    | mk k0 v0 =>
      by_cases h0 : k0 == j
      · have hk : (k0 == k) = false := by
          simp only [beq_iff_eq] at h0 ⊢
          subst h0
          exact h
        simp [mergeOne, h0, lookupVal, hk]
      · by_cases hk : k0 == k <;> simp [mergeOne, h0, lookupVal, hk, ih]

/-- Deep merging a partial leaves keys outside the partial unchanged. -/
theorem lookupVal_mergeFields_not_in (p : Smap) (t : Smap) (k : String)
    (h : keyIn p k = false) :
    lookupVal (mergeFields t p) k = lookupVal t k := by
  induction p generalizing t with
  | nil => simp [mergeFields]
  | cons q rest ih =>
    cases q with
    | mk j v =>
      have hj : (j == k) = false := by
        simp [keyIn] at h ⊢
        exact h.1
      have hrest : keyIn rest k = false := by
        simp [keyIn] at h ⊢
        exact h.2
      calc lookupVal (mergeFields t ((j, v) :: rest)) k
          = lookupVal (mergeFields (mergeOne t j v) rest) k := by simp [mergeFields]
        _ = lookupVal (mergeOne t j v) k := ih (mergeOne t j v) hrest
        _ = lookupVal t k := lookupVal_mergeOne_ne t j v k hj

/-- Map.set makes Map.has succeed on that key. -/
theorem regHas_regSet_self (reg : Registry) (k : String) (u : PluginLocal) :
    regHas (regSet reg k u) k = true := by
  induction reg with
  | nil => simp [regSet, regHas]
  | cons q rest ih =>
    cases q with
    | mk k0 u0 => by_cases h : k0 == k <;> simp_all [regSet, regHas]

/-- Map.set makes Map.get return the stored unit. -/
theorem regGet_regSet_self (reg : Registry) (k : String) (u : PluginLocal) :
    regGet (regSet reg k u) k = some u := by
  induction reg with
  | nil => simp [regSet, regGet]
  | cons q rest ih =>
    cases q with
    | mk k0 u0 => by_cases h : k0 == k <;> simp_all [regSet, regGet]

/-- Map.delete makes Map.has fail on that key. -/
theorem themesHas_themesDelete_self (m : List (String × List ThemeT)) (k : String) :
    themesHas (themesDelete m k) k = false := by
  induction m with
  | nil => simp [themesDelete, themesHas]
  | cons q rest ih =>
    cases q with
    | mk k0 v0 => by_cases h : k0 == k <;> simp_all [themesDelete, themesHas]

/-- The disposal loop trace is the pointwise image of the stack. -/
theorem runDisposeLoop_eq_map (l : List DAct) :
    runDisposeLoop l = l.map (fun d => Effect.ranDispose d.kind (!d.fails)) := by
  induction l with
  | nil => rfl
  | cons d rest ih => simp [runDisposeLoop, ih]

/-- C6: the claim fails as stated on the code.  The object form of
PluginSettings.set emits a change event unconditionally: merging the empty
partial into the constructor default store leaves every value unchanged yet
a change event still fires. -/
theorem c6_set_change_iff_counterexample :
    ¬ ((((sampleStore.set (SetArg.sObj [])).2 ≠ []) ↔
        (sampleStore.set (SetArg.sObj [])).1.settings ≠ sampleStore.settings)) := by
  intro h
  have hA : (sampleStore.set (SetArg.sObj [])).2 ≠ [] := by
    simp [PluginSettings.set, mergeFields]
  have hB := h.mp hA
  exact hB (by simp [PluginSettings.set, mergeFields])

/-- C6 amended: for the string key form a change event fires exactly when
the resulting value of that key differs from its value before the call,
and the event then carries the new and the previous map; the object form
always fires one change event carrying the deep merged map and the previous
map, and every key not present in the partial keeps its prior value. -/
theorem c6_set_change_amended :
    (∀ (s : PluginSettings) (k : String) (v : Val),
      ((((s.set (SetArg.sKey k v)).2 ≠ []) ↔ (s.set (SetArg.sKey k v)).1.get k ≠ s.get k))
      ∧ ((s.set (SetArg.sKey k v)).2 ≠ [] →
          (s.set (SetArg.sKey k v)).2 =
            [SEvent.change (s.set (SetArg.sKey k v)).1.settings s.settings]))
    ∧ (∀ (s : PluginSettings) (p : Smap),
      (s.set (SetArg.sObj p)).2 = [SEvent.change (mergeFields s.settings p) s.settings]
      ∧ (s.set (SetArg.sObj p)).1.settings = mergeFields s.settings p
      ∧ ∀ k, keyIn p k = false → (s.set (SetArg.sObj p)).1.get k = s.get k) := by
  constructor
  · intro s k v
    by_cases hjs : jsEq (lookupVal s.settings k) v
    · constructor
      · simp [PluginSettings.set, hjs]
      · intro hne
        simp [PluginSettings.set, hjs] at hne
    · constructor
      · constructor
        · intro _
          have hne := jsEq_false_ne (a := lookupVal s.settings k) (b := v)
            (by simpa using hjs)
          simp [PluginSettings.set, hjs, PluginSettings.get, lookupVal_setKey_self]
          exact fun hv => hne hv.symm
        · intro _
          simp [PluginSettings.set, hjs]
      · intro _
        simp [PluginSettings.set, hjs]
  · intro s p
    refine ⟨by simp [PluginSettings.set], by simp [PluginSettings.set], ?_⟩
    intro k hk
    simp [PluginSettings.set, PluginSettings.get]
    exact lookupVal_mergeFields_not_in p s.settings k hk

/-- Closed instance of the amended C6 statement at concrete inputs. -/
theorem c6_set_change_amended_witness :
    ((sampleStore.set (SetArg.sKey "x" (Val.vNum 1))).2 ≠ [])
    ∧ (sampleStore.set (SetArg.sObj [("y", Val.vNum 2)])).1.get "disabled" =
        sampleStore.get "disabled" := by
  constructor
  · refine (c6_set_change_amended.1 sampleStore "x" (Val.vNum 1)).1.mpr ?_
    intro h
    simp [sampleStore, PluginSettings.construct, assignAll, PluginSettings.set,
      PluginSettings.get, jsEq, Val.beq, nullish, setKey, lookupVal] at h
  · exact (c6_set_change_amended.2 sampleStore [("y", Val.vNum 2)]).2.2 "disabled"
      (by simp [keyIn])

/-- C7: the claim fails as stated on the code.  PluginSettings.reset
replaces the map with a plain empty object (the schema driven default
branch is an empty TODO), so reading the reserved disabled key afterwards
yields undefined, not a boolean. -/
theorem c7_reset_disabled_counterexample :
    isBoolVal ((sampleStore.reset).1.get "disabled") = false := rfl

/-- C7 amended: after any reset the settings map is empty, reading the
reserved disabled key yields undefined (it is a boolean after construction
but reset does not restore it), and the reset event carries the empty and
the previous map. -/
theorem c7_reset_amended (s : PluginSettings) :
    (s.reset).1.settings = [] ∧ (s.reset).1.get "disabled" = Val.vUndef
    ∧ (s.reset).2 = [SEvent.resetEv [] s.settings] :=
  ⟨rfl, rfl, rfl⟩

/-- C5: running the disposal stack invokes every accumulated release action
in insertion order (the trace is the pointwise image of the stack, so each
action is invoked once whether or not an earlier action failed) and the
stack is empty afterwards. -/
theorem c5_dispose_fifo (u : PluginLocal) :
    (u.dispose).1.disposes = []
    ∧ (u.dispose).2 = u.disposes.map (fun d => Effect.ranDispose d.kind (!d.fails))
    ∧ (u.dispose).2.length = u.disposes.length := by
  refine ⟨rfl, ?_, ?_⟩
  · simp [PluginLocal.dispose, runDisposeLoop_eq_map]
  · simp [PluginLocal.dispose, runDisposeLoop_eq_map]

/-- C2: while a unit is pending (loading or unloading), load, unload and
reload return at once with the state unchanged and an empty trace. -/
theorem c2_pending_noop (u : PluginLocal) (lenv : LoadEnv) (opts : LoadOpts)
    (isRegistering : Bool) (reg : Registry) (uenv : UnloadEnv) (unregister : Bool)
    (h : u.pending = true) :
    u.load lenv opts isRegistering reg = (u, [])
    ∧ u.unload uenv unregister = (u, [])
    ∧ u.reload uenv lenv isRegistering reg = (u, []) := by
  refine ⟨?_, ?_, ?_⟩ <;>
    simp [PluginLocal.load, PluginLocal.unload, PluginLocal.reload, h]

/-- Closed instance of C2 at a concrete loading unit. -/
theorem c2_pending_noop_witness :
    pendingUnit.load failPkgEnv ⟨false, false⟩ false [] = (pendingUnit, [])
    ∧ pendingUnit.unload failUnloadEnv false = (pendingUnit, [])
    ∧ pendingUnit.reload failUnloadEnv failPkgEnv false [] = (pendingUnit, []) :=
  c2_pending_noop pendingUnit failPkgEnv ⟨false, false⟩ false [] failUnloadEnv false rfl

/-- C3: whenever the try body of load raises (package resolution, settings
binding, entry normalization or sandbox connection), load catches the
error, records it in loadErr, runs the disposal stack accumulated up to the
raise best effort (the stack is empty afterwards) and leaves the status at
error; no failure escapes to the caller since load is total. -/
theorem c3_load_catches_errors (u : PluginLocal) (env : LoadEnv) (opts : LoadOpts)
    (isRegistering : Bool) (reg : Registry) (e : JsError) (u2 : PluginLocal)
    (tr : List Effect)
    (hp : u.pending = false)
    (hthrow : loadTryBody { u with status := LoadStatus.loading, loadErr := none }
        env opts isRegistering reg = Except.error (e, u2, tr)) :
    (u.load env opts isRegistering reg).1.loadErr = some e
    ∧ (u.load env opts isRegistering reg).1.status = LoadStatus.error
    ∧ (u.load env opts isRegistering reg).1.disposes = []
    ∧ (u.load env opts isRegistering reg).2 =
        tr ++ [Effect.logged "load"] ++ runDisposeLoop u2.disposes := by
  refine ⟨?_, ?_, ?_, ?_⟩ <;>
    simp [PluginLocal.load, hp, hthrow, PluginLocal.dispose]

/-- Closed instance of C3 at a unit whose package config fails to parse. -/
theorem c3_load_catches_errors_witness :
    ((newPluginLocal sampleDesc).load failPkgEnv ⟨false, false⟩ false []).1.loadErr =
        some (JsError.illegalPluginPackage "parse error")
    ∧ ((newPluginLocal sampleDesc).load failPkgEnv ⟨false, false⟩ false []).1.status =
        LoadStatus.error := by
  have h := c3_load_catches_errors (newPluginLocal sampleDesc) failPkgEnv ⟨false, false⟩
    false [] (JsError.illegalPluginPackage "parse error")
    { newPluginLocal sampleDesc with status := LoadStatus.loading, loadErr := none }
    [Effect.hostCall "load_plugin_config"] rfl rfl
  exact ⟨h.1, h.2.1⟩

/-- C4: a plain unload of a non pending unit always emits the unloaded
event and finishes with status unloaded, whatever the before unload
sandbox call, the beforeunload listeners and the individual release
actions do; unload is total, so no failure escapes along the way. -/
theorem c4_unload_never_raises (u : PluginLocal) (env : UnloadEnv)
    (hp : u.pending = false) :
    (u.unload env false).1.status = LoadStatus.unloaded
    ∧ Effect.emitted "unloaded" ∈ (u.unload env false).2 := by
  constructor <;> simp [PluginLocal.unload, hp, PluginLocal.unloadCore]

/-- Closed instance of C4 at a loaded unit with a rejecting before unload
call and a failing release action. -/
theorem c4_unload_never_raises_witness :
    (loadedUnit.unload failUnloadEnv false).1.status = LoadStatus.unloaded
    ∧ Effect.emitted "unloaded" ∈ (loadedUnit.unload failUnloadEnv false).2 :=
  c4_unload_never_raises loadedUnit failUnloadEnv rfl

/-- C8: a hook dispatch whose target identity names a registered unit that
is enabled and has an entry delivers the message to exactly that unit and
to no other registered unit.  (The identity is non empty, as any identity
a unit can be registered under; the source treats an empty target as no
target at all.) -/
theorem c8_hook_targeted (reg : Registry) (ctx : HookCtx) (ns ty pid : String)
    (u : PluginLocal)
    (hpid : (pid == "") = false)
    (hfind : regGet reg pid = some u)
    (hdis : truthy u.disabledVal = false)
    (hent : optStrTruthy u.entry = true) :
    hookDispatch reg ctx ns ty (some pid) = [u.id] := by
  simp [hookDispatch, hpid, hfind, hdis, hent]

/-- A registered, enabled unit bearing an entry, used by the C8 witness. -/
def hookUnit : PluginLocal :=
  { newPluginLocal sampleDesc with
      entry := some "index.html"
      settings := some sampleStore }

/-- A hook context with identity case normalization. -/
def hookCtx0 : HookCtx :=
  { caseNorm := fun s => s, shouldExec := fun _ _ => true }

/-- Closed instance of C8 on a two unit registry. -/
theorem c8_hook_targeted_witness :
    hookDispatch [("sample-plugin", hookUnit), ("other", newPluginLocal sampleDesc)]
      hookCtx0 "hook:app" "changed" (some "sample-plugin") = ["sample-plugin"] :=
  c8_hook_targeted [("sample-plugin", hookUnit), ("other", newPluginLocal sampleDesc)]
    hookCtx0 "hook:app" "changed" "sample-plugin" hookUnit rfl rfl rfl rfl

/-- C9: the claim fails as stated on the code.  The active theme here is
owned by identity a, but identity a has no entry in the registered theme
map (a theme activated from persisted preferences), so unregisterTheme
returns at once: no themes changed event, no eject, no preference change
and no reset custom theme event. -/
theorem c9_unregister_active_theme_counterexample :
    themeStateNoReg.currentTheme = some ⟨some "a", sampleTheme⟩
    ∧ unregisterTheme themeStateNoReg "a" true = (themeStateNoReg, [], []) :=
  ⟨rfl, rfl⟩

/-- C9 amended: for every identity that owns the active theme and has an
entry in the registered theme map, unregisterTheme with effect drops the
contributions, ejects the active theme and clears its record, nulls every
preference field whose pid equals the identity, persists the preferences,
and emits exactly themes changed followed by reset custom theme. -/
theorem c9_unregister_active_theme (s : ThemeState) (id : String) (ct : CurrentTheme)
    (hreg : themesHas s.registeredThemes id = true)
    (hcur : s.currentTheme = some ct)
    (hpid : ct.pid = some id) :
    themesHas (unregisterTheme s id true).1.registeredThemes id = false
    ∧ (unregisterTheme s id true).1.currentTheme = none
    ∧ (unregisterTheme s id true).1.prefs =
        { s.prefs with
            theme := clearPid s.prefs.theme id
            light := clearPid s.prefs.light id
            dark := clearPid s.prefs.dark id }
    ∧ (unregisterTheme s id true).2.1 =
        [CoreEvent.themesChangedEv, CoreEvent.resetCustomThemeEv]
    ∧ (unregisterTheme s id true).2.2 =
        [Effect.ejectedTheme, Effect.hostCall "save_user_preferences"] := by
  refine ⟨?_, ?_, ?_, ?_, ?_⟩ <;>
    simp [unregisterTheme, hreg, hcur, hpid, themesHas_themesDelete_self]

/-- Closed instance of the amended C9 statement. -/
theorem c9_unregister_active_theme_witness :
    (unregisterTheme themeStateReg "a" true).1.currentTheme = none
    ∧ (unregisterTheme themeStateReg "a" true).2.1 =
        [CoreEvent.themesChangedEv, CoreEvent.resetCustomThemeEv] := by
  have h := c9_unregister_active_theme themeStateReg "a" ⟨some "a", sampleTheme⟩ rfl rfl rfl
  exact ⟨h.2.1, h.2.2.2.1⟩

/-- C10: unregisterTheme for an identity with no entry in the registered
theme map is a complete no op, whatever the active theme and the
preferences hold. -/
theorem c10_unregister_unknown_noop (s : ThemeState) (id : String) (effect : Bool)
    (h : themesHas s.registeredThemes id = false) :
    unregisterTheme s id effect = (s, [], []) := by
  simp [unregisterTheme, h]

/-- Closed instance of C10: the active theme is owned by the identity yet
nothing happens. -/
theorem c10_unregister_unknown_noop_witness :
    unregisterTheme themeStateNoReg "a" false = (themeStateNoReg, [], []) :=
  c10_unregister_unknown_noop themeStateNoReg "a" false rfl

/-- During an active registration batch, loading a unit whose package
parses and whose resolved identity is already registered records the
duplicate identity error and drives the unit to the error status. -/
theorem load_duplicate (u : PluginLocal) (env : LoadEnv) (opts : LoadOpts)
    (reg : Registry) (p : PkgInfo)
    (hp : u.pending = false)
    (h2 : env.pkg = Except.ok p)
    (hdup : regHas reg (resolvedId u p) = true) :
    (u.load env opts true reg).1.loadErr =
        some (JsError.existedImportedPluginPackage (resolvedId u p))
    ∧ (u.load env opts true reg).1.status = LoadStatus.error := by
  simp only [resolvedId] at hdup
  constructor <;>
    (by_cases hv : validateEntry p.entryMain <;>
      simp [PluginLocal.load, hp, loadTryBody, prepare, h2, hv, resolvedId, hdup,
        PluginLocal.dispose])

/-- C1: in a registration batch, when a second descriptor resolves to the
identity a just registered unit holds, the second unit load records the
duplicate identity error, the registry keeps exactly the first unit under
that identity, the batch emits exactly one registered event and one error
event carrying the duplicate error for the pair, and the loop continues
with the remaining descriptors from the registry holding the first unit. -/
theorem c1_duplicate_identity_in_batch (d1 d2 : Desc) (e1 e2 : LoadEnv) (p2 : PkgInfo)
    (rest : List (Desc × LoadEnv)) (reg : Registry) (ex : List (Option String))
    (pid : String)
    (h1 : ((newPluginLocal d1).load e1 ⟨false, true⟩ true reg).1.loadErr = none)
    (hid1 : ((newPluginLocal d1).load e1 ⟨false, true⟩ true reg).1.id = pid)
    (h2 : e2.pkg = Except.ok p2)
    (hid2 : resolvedId (newPluginLocal d2) p2 = pid) :
    ((newPluginLocal d2).load e2 ⟨false, true⟩ true
        (regSet reg pid ((newPluginLocal d1).load e1 ⟨false, true⟩ true reg).1)).1.loadErr =
      some (JsError.existedImportedPluginPackage pid)
    ∧ regGet (regSet reg pid ((newPluginLocal d1).load e1 ⟨false, true⟩ true reg).1) pid =
        some ((newPluginLocal d1).load e1 ⟨false, true⟩ true reg).1
    ∧ (registerLoop ((d1, e1) :: (d2, e2) :: rest) reg ex).events =
        CoreEvent.registeredEv pid ::
          CoreEvent.errorEv (JsError.existedImportedPluginPackage pid) ::
          (registerLoop rest
            (regSet reg pid ((newPluginLocal d1).load e1 ⟨false, true⟩ true reg).1)
            (if !((newPluginLocal d1).load e1 ⟨false, true⟩ true reg).1.inDotRoot
             then addExternal ex d1.url else ex)).events
    ∧ (registerLoop ((d1, e1) :: (d2, e2) :: rest) reg ex).reg =
        (registerLoop rest
          (regSet reg pid ((newPluginLocal d1).load e1 ⟨false, true⟩ true reg).1)
          (if !((newPluginLocal d1).load e1 ⟨false, true⟩ true reg).1.inDotRoot
           then addExternal ex d1.url else ex)).reg := by
  have hpend2 : (newPluginLocal d2).pending = false := rfl
  have hdup : regHas (regSet reg pid ((newPluginLocal d1).load e1 ⟨false, true⟩ true reg).1)
      (resolvedId (newPluginLocal d2) p2) = true := by
    rw [hid2]
    exact regHas_regSet_self reg pid ((newPluginLocal d1).load e1 ⟨false, true⟩ true reg).1
  have hA := load_duplicate (newPluginLocal d2) e2 ⟨false, true⟩
    (regSet reg pid ((newPluginLocal d1).load e1 ⟨false, true⟩ true reg).1) p2 hpend2 h2 hdup
  rw [hid2] at hA
  refine ⟨hA.1, regGet_regSet_self reg pid _, ?_, ?_⟩ <;>
    simp [registerLoop, h1, hid1, hA.1]

/-- Descriptor of the first unit of the C1 witness pair, carrying the
identity explicitly. -/
def dupDescA : Desc :=
  { key := some "dup-id", genId := "g1", url := some "/ext/a", entry := none,
    name := some "A", inDotRoot := false, basename := "a" }

/-- Descriptor of the second unit of the C1 witness pair, resolving to the
same identity through its declared logseq.id. -/
def dupDescB : Desc :=
  { key := none, genId := "g2", url := some "/ext/b", entry := none,
    name := some "B", inDotRoot := false, basename := "b" }

/-- Parsed package of the first witness unit. -/
def okPkgA : PkgInfo :=
  { entryMain := none, devEntry := none, logseqId := none, themeFlag := false,
    themes := [], name := some "A" }

/-- Parsed package of the second witness unit, declaring the clashing
identity. -/
def okPkgB : PkgInfo :=
  { entryMain := none, devEntry := none, logseqId := some "dup-id", themeFlag := false,
    themes := [], name := some "B" }

/-- Load environment of the first witness unit: everything succeeds. -/
def envA : LoadEnv :=
  { pkg := Except.ok okPkgA, userSettings := Except.ok [],
    writeEntryFile := Except.ok "/tmp/a.html", connect := Except.ok (),
    destroyFails := false, cleanScriptsFails := false }

/-- Load environment of the second witness unit: everything succeeds up to
the identity check. -/
def envB : LoadEnv :=
  { pkg := Except.ok okPkgB, userSettings := Except.ok [],
    writeEntryFile := Except.ok "/tmp/b.html", connect := Except.ok (),
    destroyFails := false, cleanScriptsFails := false }

/-- Closed instance of C1: a two descriptor batch sharing one identity
produces exactly one registered event and one duplicate error event. -/
theorem c1_duplicate_identity_in_batch_witness :
    ((newPluginLocal dupDescB).load envB ⟨false, true⟩ true
        (regSet [] "dup-id" ((newPluginLocal dupDescA).load envA ⟨false, true⟩ true []).1)).1.loadErr =
      some (JsError.existedImportedPluginPackage "dup-id")
    ∧ (registerLoop [(dupDescA, envA), (dupDescB, envB)] [] []).events =
        [CoreEvent.registeredEv "dup-id",
         CoreEvent.errorEv (JsError.existedImportedPluginPackage "dup-id")] := by
  have h := c1_duplicate_identity_in_batch dupDescA dupDescB envA envB okPkgB [] [] []
    "dup-id" rfl rfl rfl rfl
  refine ⟨h.1, ?_⟩
  rw [h.2.2.1]
  rfl
